import Mathlib

/-!
Verification development for the `nest-initializer` repository.

The repository is a fluent configuration builder for NestJS applications.
This file gives a shallow embedding of its core logic:

* `NestInit.discoverComponents` — the auto-discovery scanner
  (`src/core/auto-discovery.helper.ts`);
* `NestInit.HealthController.check` — the health endpoint's check method
  (`health.controller.ts`);
* the `AppInitializer` builder: its mutable `BuilderState`, every chained
  configuration method, the terminal `listen` materialization step, and the
  static `bootstrap` entry point (`app-initializer` core file).

JavaScript runtime values that the code only passes around (module
descriptors, adapters, DI class references, configuration blocks) are
modelled as opaque tokens (`Nat` ids or small structures); values whose
structure the code inspects (options records, error objects, strings)
are modelled structurally.  Asynchronous control flow (`await`) is
modelled by sequential composition in the `Except` monad, and the
framework interactions performed by `listen`/`bootstrap` are recorded in
an explicit event trace.
-/

namespace NestInit

/-! ## JavaScript value helpers -/

/-- Kind of a thrown JavaScript error object: a plain `Error` or a
`TypeError` (both satisfy `instanceof Error`). -/
inductive ErrKind where
  | plain
  | type
  deriving DecidableEq, Repr

/-- A thrown JavaScript value: either an error object (with a message and a
stack trace) or some non-error raw value. -/
inductive JsVal where
  | errObj (kind : ErrKind) (message : String) (stack : String)
  | raw (v : Nat)
  deriving DecidableEq, Repr

/-- Code: `instanceof Error` test used by the bootstrap catch block. -/
def JsVal.isError : JsVal → Bool
  | .errObj _ _ _ => true
  | .raw _ => false

/-- JavaScript truthiness of a possibly-absent string (as returned by
`reflector.get<string>('path', cls)`): `undefined` and `''` are falsy. -/
def jsTruthyStr : Option String → Bool
  | none => false
  | some s => !s.isEmpty

/-- JavaScript truthiness of a possibly-absent boolean (as returned by
`reflector.get<boolean>('__injectable__', cls)`). -/
def jsTruthyBool : Option Bool → Bool
  | none => false
  | some b => b

/-- JavaScript `String.prototype.startsWith`, modelled on the character
data of the string. -/
def jsStartsWith (s pre : String) : Bool :=
  pre.data.isPrefixOf s.data

/-- Substring containment (JavaScript `String.prototype.includes`),
modelled on the character data of the string. -/
def containsSub (hay needle : String) : Bool :=
  decide (needle.data <:+: hay.data)

/-- The route-prefix normalization of `withGlobalPrefix`:
`prefix.startsWith('/') ? prefix : '/' + prefix`. -/
def normalizePrefix (p : String) : String :=
  if jsStartsWith p "/" then p else "/" ++ p

/-! ## Auto-discovery scanner (`src/core/auto-discovery.helper.ts`)

`discoverComponents` enumerates source files with `globSync` (excluding
module files, spec files, `node_modules`, `features/` and `plugins/`
directories), `require`s each one, and inspects every exported value.
The glob enumeration and the pluggable `requireFn` are external
interfaces; we model their combined outcome as a list of `SourceFile`s,
each of which either loads to a list of exported values or throws. -/

/-- One value exported by a loaded file, as seen by the scanner: the
`typeof exportedClass === 'function'` test, the `.prototype` presence
test, and the two reflector metadata queries. -/
structure ExportedSymbol where
  /-- Identity of the underlying class object (used only to compare). -/
  ref : Nat
  /-- `typeof exportedClass === 'function'`. -/
  isFunction : Bool
  /-- `exportedClass.prototype` is truthy. -/
  hasPrototype : Bool
  /-- `reflector.get<string>('path', exportedClass)` result. -/
  pathMeta : Option String
  /-- `reflector.get<boolean>('__injectable__', exportedClass)` result. -/
  injectableMeta : Option Bool
  deriving DecidableEq, Repr

/-- Outcome of `requireFn file`: either the file's exports, or a thrown
value. -/
inductive LoadResult where
  | ok (exps : List ExportedSymbol)
  | thrown (e : Nat)
  deriving DecidableEq, Repr

/-- A file as presented to the scanner's loop: `requireFn file` either
returns its exports or throws. -/
structure SourceFile where
  path : String
  load : LoadResult
  deriving DecidableEq, Repr

/-- Result of the scan: discovered providers and controllers. -/
structure DiscoveredComponents where
  providers : List ExportedSymbol
  controllers : List ExportedSymbol
  deriving DecidableEq, Repr

/-- The scanner's per-symbol classification step, exactly the `if` chain
of the source: class-like values with truthy `'path'` metadata go to
`controllers`; otherwise those with truthy `'__injectable__'` metadata
go to `providers`; everything else is ignored. -/
def classifySymbol (acc : DiscoveredComponents) (e : ExportedSymbol) :
    DiscoveredComponents :=
  if e.isFunction && e.hasPrototype then
    if jsTruthyStr e.pathMeta then
      { acc with controllers := acc.controllers ++ [e] }
    else if jsTruthyBool e.injectableMeta then
      { acc with providers := acc.providers ++ [e] }
    else acc
  else acc

/-- The scanner's per-file step: `try { … } catch (_) { /* ignore */ }` —
a file whose load throws contributes nothing. -/
def scanFile (acc : DiscoveredComponents) (f : SourceFile) :
    DiscoveredComponents :=
  match f.load with
  | .thrown _ => acc
  | .ok exps => exps.foldl classifySymbol acc

/-- Code: `discoverComponents`: fold the per-file step over the enumerated
files, starting from two empty buckets. -/
def discoverComponents (files : List SourceFile) : DiscoveredComponents :=
  files.foldl scanFile ⟨[], []⟩

/-- Predicate: the scanner classifies `e` as a handler (controller). -/
def isHandlerLike (e : ExportedSymbol) : Bool :=
  e.isFunction && e.hasPrototype && jsTruthyStr e.pathMeta

/-- Predicate: the scanner classifies `e` as an injectable (provider). -/
def isInjectableLike (e : ExportedSymbol) : Bool :=
  e.isFunction && e.hasPrototype && !jsTruthyStr e.pathMeta &&
    jsTruthyBool e.injectableMeta

/-! ## Health endpoint (`health.controller.ts`) -/

/-- Code: `TerminusHealthCheckOptions.memory` sub-record
(`{ heapThreshold?: number; rssThreshold?: number }`, in megabytes). -/
structure MemoryOptions where
  heapThreshold : Option Nat := none
  rssThreshold : Option Nat := none
  deriving DecidableEq, Repr

/-- Code: `TerminusHealthCheckOptions` (`terminus-health-check.module.ts`). -/
structure TerminusHealthCheckOptions where
  database : Option Bool := none
  memory : Option MemoryOptions := none
  deriving DecidableEq, Repr

/-- One health-indicator invocation that `HealthController.check` pushes
onto its `checks` array (thresholds already converted to bytes). -/
inductive HealthCheckCall where
  | dbPing (key : String)
  | checkHeap (key : String) (bytes : Nat)
  | checkRSS (key : String) (bytes : Nat)
  deriving DecidableEq, Repr

/-- Code: `HealthController.check`: builds the list of check functions handed to
`health.check`.  `dbAvailable` models whether the `@Optional()`
`TypeOrmHealthIndicator` was injected (`this.db` truthy). -/
def HealthController.check (options : TerminusHealthCheckOptions)
    (dbAvailable : Bool) : List HealthCheckCall :=
  (if jsTruthyBool options.database && dbAvailable then
    [.dbPing "database"]
  else []) ++
  (match options.memory with
   | some mem =>
     [.checkHeap "memory_heap" (mem.heapThreshold.getD 200 * 1024 * 1024),
      .checkRSS "memory_rss" (mem.rssThreshold.getD 300 * 1024 * 1024)]
   | none => [])

/-! ## Builder data model (`AppInitializer`)

Opaque framework values (DI class references, configuration blocks the
builder never inspects) are `Nat` tokens.  Values the builder itself
constructs or inspects are modelled structurally. -/

/-- A class reference passed to `useGlobalPipe` / `useGlobalFilter` /
`useGlobalGuard` / `useGlobalInterceptor`, or the framework's
`ClassSerializerInterceptor` class. -/
inductive TypeRef where
  | user (id : Nat)
  | classSerializerInterceptor
  deriving DecidableEq, Repr

/-- Code: `ValidationPipeOptions` as far as `withValidationPipe` manipulates
them: every key is optional (absent = not an own property, so the
`{ ...defaultOptions, ...options }` spread keeps the default). -/
structure ValidationPipeOptions where
  whitelist : Option Bool := none
  forbidNonWhitelisted : Option Bool := none
  transform : Option Bool := none
  transformOptions : Option Nat := none
  deriving DecidableEq, Repr

/-- The `{ ...defaultOptions, ...options }` merge in
`withValidationPipe` (`transformOptions`' default
`{ enableImplicitConversion: true }` is the opaque token `0`). -/
def mergeValidationPipeOptions (o : ValidationPipeOptions) :
    ValidationPipeOptions :=
  { whitelist := some (o.whitelist.getD true)
    forbidNonWhitelisted := some (o.forbidNonWhitelisted.getD true)
    transform := some (o.transform.getD true)
    transformOptions := some (o.transformOptions.getD 0) }

/-- The DI tokens under which global providers are registered. -/
inductive DIToken where
  | appPipe
  | appFilter
  | appGuard
  | appInterceptor
  deriving DecidableEq, Repr

/-- A provider entry of the synthesized root module: either a bare class
reference (auto-discovered provider) or a named-token binding pushed by
the `withValidationPipe` / `useGlobal…` / `withClassSerializer`
methods. -/
inductive ProviderEntry where
  | classRef (e : ExportedSymbol)
  | useValueValidationPipe (token : DIToken) (opts : ValidationPipeOptions)
  | useClass (token : DIToken) (cls : TypeRef)
  deriving DecidableEq, Repr

/-- A registered plugin (an object implementing
`AppInitializerPlugin`).  `user` covers caller-supplied plugins; the
other constructors are the plugin classes of this repository. -/
inductive Plugin where
  | user (name : String) (id : Nat)
  | requestLogger
  | rateLimiter (opts : Nat)
  | typeOrmMigration
  deriving DecidableEq, Repr

/-- Code: `plugin.constructor.name`, used in the "Aplicando o plugin" log. -/
def Plugin.ctorName : Plugin → String
  | .user n _ => n
  | .requestLogger => "RequestLoggerPlugin"
  | .rateLimiter _ => "RateLimiterPlugin"
  | .typeOrmMigration => "TypeOrmMigrationPlugin"

/-- A globally registered interceptor instance (from
`addGlobalInterceptor` or `withResponseMapper`). -/
inductive InterceptorInst where
  | inst (id : Nat)
  | responsePattern (mapper : Nat)
  deriving DecidableEq, Repr

/-- A deferred setup callback pushed onto `setupFunctions`. -/
inductive SetupAction where
  | enableShutdownHooks
  | useHelmet
  | useCompression
  deriving DecidableEq, Repr

/-- Code: `TypeOrmStarterOptions` with the defaults destructured by
`createTypeOrmStarter`. -/
structure TypeOrmStarterOptions where
  autoLoadEntities : Option Bool := none
  runMigrationsOnStartup : Option Bool := none
  databaseUrlEnvKey : Option String := none
  typeOrmOptions : Option Nat := none
  deriving DecidableEq, Repr

/-- Code: `MongooseStarterOptions`. -/
structure MongooseStarterOptions where
  uriEnvKey : Option String := none
  mongooseOptions : Option Nat := none
  deriving DecidableEq, Repr

/-- Code: `CachingStarterOptions`. -/
structure CachingStarterOptions where
  redisUrlEnvKey : Option String := none
  defaultTtlInSeconds : Option Nat := none
  deriving DecidableEq, Repr

/-- A module descriptor appended to `featureModules` (the dynamic
modules produced by the starters and feature `forRoot` calls), or the
caller's root application module. -/
inductive AnyModule where
  | rootModule (id : Nat)
  | terminusHealthCheck (opts : TerminusHealthCheckOptions)
  | metrics
  | configModule (schema : Nat)
  | typeOrm (autoLoadEntities : Bool) (databaseUrlEnvKey : String)
      (typeOrmOptions : Nat)
  | mongoose (uriEnvKey : String) (mongooseOptions : Nat)
  | caching (redisUrlEnvKey : String) (defaultTtlInSeconds : Nat)
  deriving DecidableEq, Repr

/-- What `createTypeOrmStarter` returns: the dynamic module plus the
plugins to register. -/
structure Starter where
  module : AnyModule
  plugins : List Plugin
  deriving DecidableEq, Repr

/-- Code: `createTypeOrmStarter` (`typeorm.starter.ts`): destructure options
with defaults, build the dynamic module, and add the migration plugin
iff `runMigrationsOnStartup`. -/
def createTypeOrmStarter (options : TypeOrmStarterOptions) : Starter :=
  { module := .typeOrm (options.autoLoadEntities.getD true)
      (options.databaseUrlEnvKey.getD "DATABASE_URL")
      (options.typeOrmOptions.getD 0)
    plugins :=
      if options.runMigrationsOnStartup.getD false then
        [.typeOrmMigration]
      else [] }

/-- Code: `createMongooseStarter` (`mongoose.starter.ts`). -/
def createMongooseStarter (options : MongooseStarterOptions) : Starter :=
  { module := .mongoose (options.uriEnvKey.getD "MONGO_URI")
      (options.mongooseOptions.getD 0)
    plugins := [] }

/-- Code: `createCachingStarter` (`caching.starter.ts`): returns just the
dynamic module. -/
def createCachingStarter (options : CachingStarterOptions) : AnyModule :=
  .caching (options.redisUrlEnvKey.getD "REDIS_URL")
    (options.defaultTtlInSeconds.getD 300)

/-- A Swagger tag (`SwaggerDocumentTags`). -/
structure SwaggerTag where
  name : String
  description : Option String := none
  deriving DecidableEq, Repr

/-- Code: `SwaggerOptions` of the builder. -/
structure SwaggerOptions where
  title : String
  description : String
  version : String
  tags : Option (List SwaggerTag) := none
  path : Option String := none
  documentOptions : Option Nat := none
  customOptions : Option Nat := none
  deriving DecidableEq, Repr

/-- The `advancedSwaggerUiOptions` record set by
`withAdvancedSwaggerUI`. -/
structure AdvancedSwaggerUiOptions where
  customCss : String
  customJs : String
  deriving DecidableEq, Repr

/-- The mutable fields of an `AppInitializer` instance (everything the
chained configuration calls write; the readonly `module`, `adapter` and
`logger` fields live on `Builder` below). -/
structure BuilderState where
  port : Nat
  globalPrefix : Option String := none
  versioningOptions : Option Nat := none
  corsOptions : Option Nat := none
  swaggerOptions : Option SwaggerOptions := none
  setupFunctions : List SetupAction := []
  plugins : List Plugin := []
  featureModules : List AnyModule := []
  advancedSwaggerUiOptions : Option AdvancedSwaggerUiOptions := none
  autoDiscoveredComponents : Option DiscoveredComponents := none
  globalProviders : List ProviderEntry := []
  globalInterceptors : List InterceptorInst := []
  factoryGeneratedControllers : List TypeRef := []
  deriving DecidableEq, Repr

/-- An `AppInitializer` instance: the readonly constructor-captured
fields plus the mutable `BuilderState`. -/
structure Builder where
  module : Nat
  adapter : Option Nat := none
  st : BuilderState
  deriving DecidableEq, Repr

/-- Code: `parseInt(process.env.PORT || '3000', 10)`: the field initializer of
`port`.  (For absent or non-numeric `PORT` we keep the modelled default;
`parseInt` on garbage yielding `NaN` is outside the claims.) -/
def defaultPort (envPORT : Option String) : Nat :=
  match envPORT with
  | some s => (s.toNat?).getD 3000
  | none => 3000

/-- Code: `private constructor(module, adapter?)` with the field
initializers. -/
def Builder.mk' (module : Nat) (adapter : Option Nat)
    (envPORT : Option String) : Builder :=
  { module, adapter, st := { port := defaultPort envPORT } }

/-! ### Chained configuration methods

Each method is the literal state effect of the corresponding
`AppInitializer` method; `return this` is modelled by the function
returning the (single) builder's updated state. -/

/-- Code: `onPort`. -/
def onPort (port : Nat) (s : BuilderState) : BuilderState :=
  { s with port := port }

/-- Code: `withPlugin`. -/
def withPlugin (plugin : Plugin) (s : BuilderState) : BuilderState :=
  { s with plugins := s.plugins ++ [plugin] }

/-- Code: `withVersioning`. -/
def withVersioning (options : Nat) (s : BuilderState) : BuilderState :=
  { s with versioningOptions := some options }

/-- Code: `withGlobalPrefix`:
`prefix.startsWith('/') ? prefix : '/' + prefix`. -/
def withGlobalPrefix (pfx : String) (s : BuilderState) : BuilderState :=
  { s with globalPrefix := some (normalizePrefix pfx) }

/-- Code: `withCors` (the TS default argument `options = {}` is an opaque
token supplied by the caller model). -/
def withCors (options : Nat) (s : BuilderState) : BuilderState :=
  { s with corsOptions := some options }

/-- Code: `withValidationPipe`: pushes
`{ provide: APP_PIPE, useValue: new ValidationPipe(finalOptions) }`. -/
def withValidationPipe (options : ValidationPipeOptions)
    (s : BuilderState) : BuilderState :=
  { s with globalProviders := s.globalProviders ++
      [.useValueValidationPipe .appPipe
        (mergeValidationPipeOptions options)] }

/-- Code: `useGlobalPipe`. -/
def useGlobalPipe (pipe : TypeRef) (s : BuilderState) : BuilderState :=
  { s with globalProviders := s.globalProviders ++
      [.useClass .appPipe pipe] }

/-- Code: `useGlobalFilter`. -/
def useGlobalFilter (filter : TypeRef) (s : BuilderState) : BuilderState :=
  { s with globalProviders := s.globalProviders ++
      [.useClass .appFilter filter] }

/-- Code: `useGlobalGuard`. -/
def useGlobalGuard (guard : TypeRef) (s : BuilderState) : BuilderState :=
  { s with globalProviders := s.globalProviders ++
      [.useClass .appGuard guard] }

/-- Code: `useGlobalInterceptor`. -/
def useGlobalInterceptor (interceptor : TypeRef) (s : BuilderState) :
    BuilderState :=
  { s with globalProviders := s.globalProviders ++
      [.useClass .appInterceptor interceptor] }

/-- Code: `withClassSerializer`. -/
def withClassSerializer (s : BuilderState) : BuilderState :=
  { s with globalProviders := s.globalProviders ++
      [.useClass .appInterceptor .classSerializerInterceptor] }

/-- Code: `withSwagger`: `this.swaggerOptions = { path: 'docs', ...options }`
(the spread keeps `options.path` when present, else the default
`'docs'`). -/
def withSwagger (options : SwaggerOptions) (s : BuilderState) :
    BuilderState :=
  { s with
      swaggerOptions :=
        some { options with path := some (options.path.getD "docs") } }

/-- Code: `withAdvancedSwaggerUI` (the two `join(__dirname, …)` paths). -/
def withAdvancedSwaggerUI (s : BuilderState) : BuilderState :=
  { s with
      advancedSwaggerUiOptions :=
        some { customCss := "swagger-ui-customization/swagger-dark-theme.css"
               customJs := "swagger-ui-customization/swagger-custom.js" } }

/-- Code: `withGracefulShutdown`. -/
def withGracefulShutdown (s : BuilderState) : BuilderState :=
  { s with setupFunctions := s.setupFunctions ++ [.enableShutdownHooks] }

/-- Code: `useHelmet`. -/
def useHelmet (s : BuilderState) : BuilderState :=
  { s with setupFunctions := s.setupFunctions ++ [.useHelmet] }

/-- Code: `enableCompression`. -/
def enableCompression (s : BuilderState) : BuilderState :=
  { s with setupFunctions := s.setupFunctions ++ [.useCompression] }

/-- Code: `withValidatedConfig`: pushes the `ConfigModule.forRoot` dynamic
module built over the schema. -/
def withValidatedConfig (schema : Nat) (s : BuilderState) : BuilderState :=
  { s with featureModules := s.featureModules ++ [.configModule schema] }

/-- Code: `withHealthCheck`. -/
def withHealthCheck (options : TerminusHealthCheckOptions)
    (s : BuilderState) : BuilderState :=
  { s with featureModules := s.featureModules ++
      [.terminusHealthCheck options] }

/-- Code: `withMetrics`. -/
def withMetrics (s : BuilderState) : BuilderState :=
  { s with featureModules := s.featureModules ++ [.metrics] }

/-- Code: `withTypeOrm`: push the starter's module, then `withPlugin` each of
the starter's plugins. -/
def withTypeOrm (options : TypeOrmStarterOptions) (s : BuilderState) :
    BuilderState :=
  let starter := createTypeOrmStarter options
  let s := { s with featureModules := s.featureModules ++ [starter.module] }
  starter.plugins.foldl (fun st p => withPlugin p st) s

/-- Code: `withMongoose`: push the starter's module. -/
def withMongoose (options : MongooseStarterOptions) (s : BuilderState) :
    BuilderState :=
  { s with featureModules := s.featureModules ++
      [(createMongooseStarter options).module] }

/-- Code: `withCaching`: push the cache dynamic module. -/
def withCaching (options : CachingStarterOptions) (s : BuilderState) :
    BuilderState :=
  { s with featureModules := s.featureModules ++
      [createCachingStarter options] }

/-- Code: `withAutoDiscovery`: run the scanner and store its result.  The
`basePath` glob enumeration is modelled by the resulting file list. -/
def withAutoDiscovery (files : List SourceFile) (s : BuilderState) :
    BuilderState :=
  { s with autoDiscoveredComponents := some (discoverComponents files) }

/-- Code: `addGlobalInterceptor`. -/
def addGlobalInterceptor (interceptor : InterceptorInst)
    (s : BuilderState) : BuilderState :=
  { s with globalInterceptors := s.globalInterceptors ++ [interceptor] }

/-- Code: `withResponseMapper`: wraps the mapper in a
`ResponsePatternInterceptor` instance. -/
def withResponseMapper (mapper : Nat) (s : BuilderState) : BuilderState :=
  { s with globalInterceptors := s.globalInterceptors ++
      [.responsePattern mapper] }

/-- Code: `useDevelopmentDefaults`: `withSwagger({ ...swaggerOptions,
path: 'docs' })` then `withPlugin(new RequestLoggerPlugin())`. -/
def useDevelopmentDefaults (options : SwaggerOptions) (s : BuilderState) :
    BuilderState :=
  withPlugin .requestLogger
    (withSwagger { options with path := some "docs" } s)

/-- Code: `useProductionDefaults`: helmet, compression, graceful shutdown, and
a `RateLimiterPlugin` with default options (opaque token `0`). -/
def useProductionDefaults (s : BuilderState) : BuilderState :=
  withPlugin (.rateLimiter 0)
    (withGracefulShutdown (enableCompression (useHelmet s)))

/-- The `when(condition, configure)` combinator. -/
def whenCombinator (condition : Bool)
    (configure : BuilderState → BuilderState) (s : BuilderState) :
    BuilderState :=
  if condition then configure s else s

/-! ### Reified configuration calls

`ConfigCall` enumerates the chained configuration methods (everything a
configurator callback can invoke on the builder, apart from the pure
`when` combinator, which merely selects which of these calls run). -/

/-- One chained configuration call, with its arguments. -/
inductive ConfigCall where
  | useDevelopmentDefaults (options : SwaggerOptions)
  | useProductionDefaults
  | withHealthCheck (options : TerminusHealthCheckOptions)
  | withMetrics
  | onPort (port : Nat)
  | withPlugin (plugin : Plugin)
  | withVersioning (options : Nat)
  | withGlobalPrefix (pfx : String)
  | withCors (options : Nat)
  | withValidationPipe (options : ValidationPipeOptions)
  | useGlobalPipe (pipe : TypeRef)
  | useGlobalFilter (filter : TypeRef)
  | useGlobalGuard (guard : TypeRef)
  | useGlobalInterceptor (interceptor : TypeRef)
  | withClassSerializer
  | withSwagger (options : SwaggerOptions)
  | withAdvancedSwaggerUI
  | withGracefulShutdown
  | useHelmet
  | enableCompression
  | withValidatedConfig (schema : Nat)
  | withTypeOrm (options : TypeOrmStarterOptions)
  | withMongoose (options : MongooseStarterOptions)
  | withCaching (options : CachingStarterOptions)
  | withAutoDiscovery (files : List SourceFile)
  | addGlobalInterceptor (interceptor : InterceptorInst)
  | withResponseMapper (mapper : Nat)
  deriving DecidableEq, Repr

/-- Interpret one reified call as its state effect. -/
def applyCall : ConfigCall → BuilderState → BuilderState
  | .useDevelopmentDefaults o => useDevelopmentDefaults o
  | .useProductionDefaults => useProductionDefaults
  | .withHealthCheck o => withHealthCheck o
  | .withMetrics => withMetrics
  | .onPort p => onPort p
  | .withPlugin p => withPlugin p
  | .withVersioning o => withVersioning o
  | .withGlobalPrefix p => withGlobalPrefix p
  | .withCors o => withCors o
  | .withValidationPipe o => withValidationPipe o
  | .useGlobalPipe c => useGlobalPipe c
  | .useGlobalFilter c => useGlobalFilter c
  | .useGlobalGuard c => useGlobalGuard c
  | .useGlobalInterceptor c => useGlobalInterceptor c
  | .withClassSerializer => withClassSerializer
  | .withSwagger o => withSwagger o
  | .withAdvancedSwaggerUI => withAdvancedSwaggerUI
  | .withGracefulShutdown => withGracefulShutdown
  | .useHelmet => useHelmet
  | .enableCompression => enableCompression
  | .withValidatedConfig n => withValidatedConfig n
  | .withTypeOrm o => withTypeOrm o
  | .withMongoose o => withMongoose o
  | .withCaching o => withCaching o
  | .withAutoDiscovery fs => withAutoDiscovery fs
  | .addGlobalInterceptor i => addGlobalInterceptor i
  | .withResponseMapper m => withResponseMapper m

/-- Interpret a sequence of chained calls, left to right. -/
def applyCalls (calls : List ConfigCall) (s : BuilderState) :
    BuilderState :=
  calls.foldl (fun st c => applyCall c st) s

/-! ### Per-call contribution functions

These specification-side functions read off, from a single reified
call, what it appends to each of the builder's append-only sequences and
whether it overwrites each scalar field.  They are the yardstick that
the accumulation theorems compare `applyCall` against. -/

/-- Modules a call appends to `featureModules`. -/
def featureModulesOf : ConfigCall → List AnyModule
  | .withHealthCheck o => [.terminusHealthCheck o]
  | .withMetrics => [.metrics]
  | .withValidatedConfig n => [.configModule n]
  | .withTypeOrm o => [(createTypeOrmStarter o).module]
  | .withMongoose o => [(createMongooseStarter o).module]
  | .withCaching o => [createCachingStarter o]
  | _ => []

/-- Provider bindings a call appends to `globalProviders`. -/
def globalProvidersOf : ConfigCall → List ProviderEntry
  | .withValidationPipe o =>
      [.useValueValidationPipe .appPipe (mergeValidationPipeOptions o)]
  | .useGlobalPipe c => [.useClass .appPipe c]
  | .useGlobalFilter c => [.useClass .appFilter c]
  | .useGlobalGuard c => [.useClass .appGuard c]
  | .useGlobalInterceptor c => [.useClass .appInterceptor c]
  | .withClassSerializer => [.useClass .appInterceptor .classSerializerInterceptor]
  | _ => []

/-- Plugins a call appends to `plugins`. -/
def pluginsOf : ConfigCall → List Plugin
  | .useDevelopmentDefaults _ => [.requestLogger]
  | .useProductionDefaults => [.rateLimiter 0]
  | .withPlugin p => [p]
  | .withTypeOrm o => (createTypeOrmStarter o).plugins
  | _ => []

/-- Setup callbacks a call appends to `setupFunctions`. -/
def setupFunctionsOf : ConfigCall → List SetupAction
  | .useProductionDefaults => [.useHelmet, .useCompression, .enableShutdownHooks]
  | .withGracefulShutdown => [.enableShutdownHooks]
  | .useHelmet => [.useHelmet]
  | .enableCompression => [.useCompression]
  | _ => []

/-- Interceptor instances a call appends to `globalInterceptors`. -/
def globalInterceptorsOf : ConfigCall → List InterceptorInst
  | .addGlobalInterceptor i => [i]
  | .withResponseMapper m => [.responsePattern m]
  | _ => []

/-- The value (if any) a call writes into `autoDiscoveredComponents`. -/
def discoveryWriteOf : ConfigCall → Option DiscoveredComponents
  | .withAutoDiscovery fs => some (discoverComponents fs)
  | _ => none

/-- The value (if any) a call writes into `port`. -/
def portWriteOf : ConfigCall → Option Nat
  | .onPort p => some p
  | _ => none

/-- The value (if any) a call writes into `globalPrefix`. -/
def globalPrefixWriteOf : ConfigCall → Option String
  | .withGlobalPrefix p => some (normalizePrefix p)
  | _ => none

/-- The value (if any) a call writes into `versioningOptions`. -/
def versioningWriteOf : ConfigCall → Option Nat
  | .withVersioning o => some o
  | _ => none

/-- The value (if any) a call writes into `corsOptions`. -/
def corsWriteOf : ConfigCall → Option Nat
  | .withCors o => some o
  | _ => none

/-- The value (if any) a call writes into `swaggerOptions`. -/
def swaggerWriteOf : ConfigCall → Option SwaggerOptions
  | .useDevelopmentDefaults o => some { o with path := some "docs" }
  | .withSwagger o => some { o with path := some (o.path.getD "docs") }
  | _ => none

/-- The value (if any) a call writes into `advancedSwaggerUiOptions`. -/
def advancedSwaggerWriteOf : ConfigCall → Option AdvancedSwaggerUiOptions
  | .withAdvancedSwaggerUI =>
      some { customCss := "swagger-ui-customization/swagger-dark-theme.css"
             customJs := "swagger-ui-customization/swagger-custom.js" }
  | _ => none

/-- The last write a call sequence performs on a scalar field, given the
per-call write function (`none` = the sequence never writes it). -/
def lastWrite {α : Type} (writeOf : ConfigCall → Option α) :
    List ConfigCall → Option α → Option α
  | [], acc => acc
  | c :: cs, acc =>
    lastWrite writeOf cs
      (match writeOf c with
       | some v => some v
       | none => acc)

/-- The state every sequence of chained calls is proved to produce:
append-only sequences grow by each call's contribution in call order,
scalar fields keep the last written value, and
`factoryGeneratedControllers` (which no chained call writes) is
untouched. -/
def specApply (cs : List ConfigCall) (s : BuilderState) : BuilderState :=
  { port := (lastWrite portWriteOf cs none).getD s.port
    globalPrefix := lastWrite globalPrefixWriteOf cs s.globalPrefix
    versioningOptions := lastWrite versioningWriteOf cs s.versioningOptions
    corsOptions := lastWrite corsWriteOf cs s.corsOptions
    swaggerOptions := lastWrite swaggerWriteOf cs s.swaggerOptions
    setupFunctions := s.setupFunctions ++ cs.flatMap setupFunctionsOf
    plugins := s.plugins ++ cs.flatMap pluginsOf
    featureModules := s.featureModules ++ cs.flatMap featureModulesOf
    advancedSwaggerUiOptions :=
      lastWrite advancedSwaggerWriteOf cs s.advancedSwaggerUiOptions
    autoDiscoveredComponents :=
      lastWrite discoveryWriteOf cs s.autoDiscoveredComponents
    globalProviders := s.globalProviders ++ cs.flatMap globalProvidersOf
    globalInterceptors :=
      s.globalInterceptors ++ cs.flatMap globalInterceptorsOf
    factoryGeneratedControllers := s.factoryGeneratedControllers }

/-- Is this call one of the two preset combinators
(`useDevelopmentDefaults` / `useProductionDefaults`), which by design
bundle several primitive calls? -/
def ConfigCall.isPreset : ConfigCall → Bool
  | .useDevelopmentDefaults _ => true
  | .useProductionDefaults => true
  | _ => false

/-- Does this call avoid `withTypeOrm`'s migration-plugin
side-registration (`runMigrationsOnStartup`)? -/
def ConfigCall.migrationFree : ConfigCall → Bool
  | .withTypeOrm o => !(o.runMigrationsOnStartup.getD false)
  | _ => true

/-- The number of distinct `BuilderState` fields a call writes (scalar
overwrites and sequence appends both count their target field once). -/
def touchCount (c : ConfigCall) : Nat :=
  (if featureModulesOf c = [] then 0 else 1) +
  (if globalProvidersOf c = [] then 0 else 1) +
  (if pluginsOf c = [] then 0 else 1) +
  (if setupFunctionsOf c = [] then 0 else 1) +
  (if globalInterceptorsOf c = [] then 0 else 1) +
  (if (portWriteOf c).isSome then 1 else 0) +
  (if (globalPrefixWriteOf c).isSome then 1 else 0) +
  (if (versioningWriteOf c).isSome then 1 else 0) +
  (if (corsWriteOf c).isSome then 1 else 0) +
  (if (swaggerWriteOf c).isSome then 1 else 0) +
  (if (advancedSwaggerWriteOf c).isSome then 1 else 0) +
  (if (discoveryWriteOf c).isSome then 1 else 0)

/-! ## Terminal materialization (`listen`) -/

/-- A controller entry of the synthesized root module: an auto-discovered
handler class or an explicitly supplied controller type. -/
inductive ControllerRef where
  | discovered (e : ExportedSymbol)
  | explicit (t : TypeRef)
  deriving DecidableEq, Repr

/-- The `@Module({ imports, controllers, providers })` decorator payload
of the synthesized `DynamicRootModule`. -/
structure RootModule where
  imports : List AnyModule
  controllers : List ControllerRef
  providers : List ProviderEntry
  deriving DecidableEq, Repr

/-- Code: `listen`'s synthesis of `DynamicRootModule` from the frozen state:
`rootImports = [this.module, ...this.featureModules]`,
`allProviders = [...(autoDiscoveredComponents?.providers ?? []),
...globalProviders]`, `allControllers =
[...(autoDiscoveredComponents?.controllers ?? []),
...factoryGeneratedControllers]`. -/
def mkRootModule (b : Builder) : RootModule :=
  { imports := .rootModule b.module :: b.st.featureModules
    controllers :=
      ((b.st.autoDiscoveredComponents.map (·.controllers)).getD []).map
          .discovered ++
        b.st.factoryGeneratedControllers.map .explicit
    providers :=
      ((b.st.autoDiscoveredComponents.map (·.providers)).getD []).map
          .classRef ++
        b.st.globalProviders }

/-- One observable step of the materialization sequence: a log line or a
call into the framework. -/
inductive Event where
  | logMsg (msg : String)
  | factoryCreate (root : RootModule) (adapter : Option Nat)
  | setGlobalPrefix (p : String)
  | enableCors (o : Nat)
  | enableVersioning (o : Nat)
  | setupRun (a : SetupAction)
  | pluginApplyBegin (p : Plugin)
  | pluginApplyEnd (p : Plugin)
  | useGlobalInterceptors (i : InterceptorInst)
  | swaggerSetup (path : String) (o : SwaggerOptions)
  | appListen (port : Nat)
  | getUrl
  deriving DecidableEq, Repr

/-- Is this event `NestFactory.create` (composition-root synthesis)? -/
def Event.isFactoryCreate : Event → Bool
  | .factoryCreate _ _ => true
  | _ => false

/-- Is this event one of the three conditional configuration calls
(route prefix, CORS, versioning)? -/
def Event.isAppConfig : Event → Bool
  | .setGlobalPrefix _ => true
  | .enableCors _ => true
  | .enableVersioning _ => true
  | _ => false

/-- Is this event the network bind `app.listen(port)`? -/
def Event.isAppListen : Event → Bool
  | .appListen _ => true
  | _ => false

/-- Events that the plugin loop can emit. -/
def Event.isPluginPhase : Event → Bool
  | .logMsg _ => true
  | .pluginApplyBegin _ => true
  | .pluginApplyEnd _ => true
  | _ => false

/-- The plugin loop of `listen`:
`for (const plugin of this.plugins) { log…; await plugin.apply(app) }`.
`applyFn` gives each plugin's runtime outcome; an `await` that rejects
aborts the loop and the rejection propagates.  Returns the emitted
events and the propagated error, if any. -/
def runPlugins (applyFn : Plugin → Except JsVal Unit) :
    List Plugin → List Event × Option JsVal
  | [] => ([], none)
  | p :: ps =>
    match applyFn p with
    | .ok _ =>
      let rest := runPlugins applyFn ps
      ([.logMsg ("Aplicando o plugin: " ++ p.ctorName),
        .pluginApplyBegin p, .pluginApplyEnd p] ++ rest.1, rest.2)
    | .error e =>
      ([.logMsg ("Aplicando o plugin: " ++ p.ctorName),
        .pluginApplyBegin p], some e)

/-- The events of the successful tail of `listen` (after the plugin
loop): interceptor installation, optional Swagger setup, the network
bind, URL resolution and the final log lines. -/
def listenTail (st : BuilderState) (appUrl : String) : List Event :=
  st.globalInterceptors.map .useGlobalInterceptors ++
  (match st.swaggerOptions with
   | some so => [.swaggerSetup (so.path.getD "docs") so]
   | none => []) ++
  [.appListen st.port, .getUrl,
   .logMsg ("🚀 Aplicação rodando em: " ++ appUrl)] ++
  (match st.swaggerOptions with
   | some so =>
     [.logMsg ("📄 Documentação Swagger disponível em: " ++ appUrl ++
       "/" ++ so.path.getD "docs")]
   | none => [])

/-- The events of `listen` up to and including the setup-function loop:
application creation, then prefix/CORS/versioning (each guarded exactly
as in the source — by the field's JavaScript truthiness), then the
setup callbacks. -/
def listenPre (b : Builder) : List Event :=
  [.logMsg "Criando a instância da aplicação NestJS...",
   .factoryCreate (mkRootModule b) b.adapter] ++
  (if jsTruthyStr b.st.globalPrefix then
    [.setGlobalPrefix (b.st.globalPrefix.getD "")]
  else []) ++
  (match b.st.corsOptions with
   | some o => [.enableCors o]
   | none => []) ++
  (match b.st.versioningOptions with
   | some v => [.enableVersioning v]
   | none => []) ++
  b.st.setupFunctions.map .setupRun

/-- Code: `listen`: synthesize the root module, create the application,
apply prefix/CORS/versioning (each guarded by the field's JavaScript
truthiness), run the setup callbacks, run the plugins (awaited in
order; a rejection aborts and propagates), then install interceptors,
set up Swagger if configured, bind the listener and log the URLs.
`appUrl` models what `app.getUrl()` resolves to.  Returns the event
trace and the propagated error, if any. -/
def listenRun (b : Builder) (applyFn : Plugin → Except JsVal Unit)
    (appUrl : String) : List Event × Option JsVal :=
  match runPlugins applyFn b.st.plugins with
  | (evs, some e) => (listenPre b ++ evs, some e)
  | (evs, none) => (listenPre b ++ evs ++ listenTail b.st appUrl, none)

/-! ## Static bootstrap entry point -/

/-- Severity of a logger call. -/
inductive LogLevel where
  | info
  | error
  deriving DecidableEq, Repr

/-- Trailing argument of a logger call (`logger.error(msg, stackOrVal)`). -/
inductive LogArg where
  | str (s : String)
  | val (v : JsVal)
  deriving DecidableEq, Repr

/-- One logger call. -/
structure LogEntry where
  level : LogLevel
  message : String
  trailing : Option LogArg := none
  deriving DecidableEq, Repr

/-- The single catch block of `bootstrap`: `error instanceof Error`
gets its message and stack logged, anything else gets the generic
message plus the raw value. -/
def errorLogFor : JsVal → LogEntry
  | .errObj _ m st =>
    { level := .error
      message := "Falha ao inicializar a aplicação. Error: " ++ m
      trailing := some (.str st) }
  | .raw v =>
    { level := .error
      message := "Falha ao inicializar a aplicação com um erro não-padrão."
      trailing := some (.val (.raw v)) }

/-- The `logger.log` lines among a list of events. -/
def logsOfEvents (evs : List Event) : List LogEntry :=
  evs.filterMap fun e =>
    match e with
    | .logMsg m => some { level := .info, message := m }
    | _ => none

/-- The message of the `TypeError` thrown when no configurator is
found. -/
def bootstrapTypeErrorMessage : String :=
  "Função de configuração do bootstrap não encontrada. Verifique os argumentos."

/-- A configurator callback: it receives the builder and either returns
(having mutated it) or throws. -/
def Configurator : Type := Builder → Except JsVal Builder

/-- The second argument of `bootstrap`: either an HTTP adapter object or
the configurator function (`isExpress = typeof arg === 'function'`). -/
inductive BootstrapSecondArg where
  | adapter (a : Nat)
  | configurator (f : Configurator)

/-- The externally observable outcome of a `bootstrap` invocation. -/
structure BootstrapResult where
  /-- Logger calls, in order. -/
  logs : List LogEntry
  /-- `some 1` iff `process.exit(1)` was reached. -/
  exitStatus : Option Nat
  /-- The value propagated (as a rejection) to `bootstrap`'s caller,
  if any. -/
  thrown : Option JsVal
  /-- The materialization events (empty when `listen` was never
  reached). -/
  events : List Event

/-- Code: `AppInitializer.bootstrap`: resolve the adapter/configurator
overload, fail with a `TypeError` when no configurator is present
(before the `try` block, so nothing is logged and the process does not
exit), otherwise construct the builder, run the configurator and
`listen` inside the single `try`, and on any error log it once and exit
with status 1. -/
def bootstrap (module : Nat) (arg2 : BootstrapSecondArg)
    (arg3 : Option Configurator) (envPORT : Option String)
    (applyFn : Plugin → Except JsVal Unit) (appUrl : String) :
    BootstrapResult :=
  let adapter := match arg2 with
    | .adapter a => some a
    | .configurator _ => none
  let finalConfigurator := match arg2 with
    | .configurator f => some f
    | .adapter _ => arg3
  match finalConfigurator with
  | none =>
    { logs := []
      exitStatus := none
      thrown := some (.errObj .type bootstrapTypeErrorMessage "")
      events := [] }
  | some cfg =>
    let startLog : LogEntry :=
      { level := .info
        message := "Iniciando o processo de bootstrap da aplicação..." }
    match cfg (Builder.mk' module adapter envPORT) with
    | .error e =>
      { logs := [startLog, errorLogFor e]
        exitStatus := some 1
        thrown := none
        events := [] }
    | .ok b1 =>
      match listenRun b1 applyFn appUrl with
      | (evs, some e) =>
        { logs := [startLog] ++ logsOfEvents evs ++ [errorLogFor e]
          exitStatus := some 1
          thrown := none
          events := evs }
      | (evs, none) =>
        { logs := [startLog] ++ logsOfEvents evs
          exitStatus := none
          thrown := none
          events := evs }

/-- Did `requireFn` succeed on this file? -/
def SourceFile.loadOk (f : SourceFile) : Bool :=
  match f.load with
  | .ok _ => true
  | .thrown _ => false

/-- The exported symbols a file contributes to the scan (none when its
load throws). -/
def SourceFile.exportsOf (f : SourceFile) : List ExportedSymbol :=
  match f.load with
  | .ok exps => exps
  | .thrown _ => []

/-- Is this logger call an error-level call? -/
def isErrorLog (l : LogEntry) : Bool :=
  match l.level with
  | .error => true
  | .info => false

/-! ## Accumulation lemmas -/

/-- Code: `lastWrite` over an arbitrary accumulator, expressed through the
`none`-seeded run. -/
theorem lastWrite_shift {α : Type} (w : ConfigCall → Option α)
    (cs : List ConfigCall) (acc : Option α) :
    lastWrite w cs acc =
      match lastWrite w cs none with
      | some v => some v
      | none => acc := by
  induction cs generalizing acc with
  | nil => cases acc <;> simp [lastWrite]
  | cons c cs ih =>
    simp only [lastWrite]
    rw [ih, ih (match w c with | some v => some v | none => none)]
    cases lastWrite w cs none <;> cases w c <;> rfl

/-- Code: `lastWrite` over an appended call sequence. -/
theorem lastWrite_append {α : Type} (w : ConfigCall → Option α)
    (cs ds : List ConfigCall) (acc : Option α) :
    lastWrite w (cs ++ ds) acc = lastWrite w ds (lastWrite w cs acc) := by
  induction cs generalizing acc with
  | nil => rfl
  | cons c cs ih =>
    simp only [List.cons_append, lastWrite]
    exact ih _

/-- Code: `withTypeOrm` written as a single record update. -/
theorem withTypeOrm_eq (o : TypeOrmStarterOptions) (s : BuilderState) :
    withTypeOrm o s =
      { s with
          featureModules :=
            s.featureModules ++ [(createTypeOrmStarter o).module]
          plugins := s.plugins ++ (createTypeOrmStarter o).plugins } := by
  unfold withTypeOrm createTypeOrmStarter
  by_cases h : o.runMigrationsOnStartup.getD false <;>
    simp [h, withPlugin]

/-- Each single chained call realizes its contribution spec. -/
theorem applyCall_spec (c : ConfigCall) (s : BuilderState) :
    applyCall c s = specApply [c] s := by
  cases c <;>
    simp [applyCall, specApply, lastWrite, onPort, withPlugin,
      withVersioning, withGlobalPrefix, withCors, withValidationPipe,
      useGlobalPipe, useGlobalFilter, useGlobalGuard, useGlobalInterceptor,
      withClassSerializer, withSwagger, withAdvancedSwaggerUI,
      withGracefulShutdown, useHelmet, enableCompression,
      withValidatedConfig, withHealthCheck, withMetrics, withTypeOrm_eq,
      withMongoose, withCaching, withAutoDiscovery, addGlobalInterceptor,
      withResponseMapper, useDevelopmentDefaults, useProductionDefaults,
      featureModulesOf, globalProvidersOf, pluginsOf, setupFunctionsOf,
      globalInterceptorsOf, discoveryWriteOf, portWriteOf,
      globalPrefixWriteOf, versioningWriteOf, corsWriteOf, swaggerWriteOf,
      advancedSwaggerWriteOf]

/-- Composing contribution specs concatenates the call sequences. -/
theorem specApply_append (cs ds : List ConfigCall) (s : BuilderState) :
    specApply ds (specApply cs s) = specApply (cs ++ ds) s := by
  simp only [specApply, lastWrite_append]
  refine BuilderState.mk.injEq .. ▸ ?_
  constructor
  · rw [lastWrite_shift portWriteOf ds (lastWrite portWriteOf cs none)]
    cases lastWrite portWriteOf ds none <;>
      cases lastWrite portWriteOf cs none <;> rfl
  · simp [List.append_assoc]

/-- Every sequence of chained calls realizes the accumulated
contribution spec: append-only sequences collect each call's entries in
order, scalar fields keep the last written value. -/
theorem applyCalls_spec (cs : List ConfigCall) (s : BuilderState) :
    applyCalls cs s = specApply cs s := by
  induction cs generalizing s with
  | nil =>
    simp [applyCalls, specApply, lastWrite]
  | cons c cs ih =>
    have h1 : applyCalls (c :: cs) s = applyCalls cs (applyCall c s) := rfl
    rw [h1, ih, applyCall_spec, specApply_append]
    rfl

/-! ## Scanner lemmas -/

/-- Folding the per-symbol classification step appends, to each bucket,
exactly the symbols satisfying the corresponding predicate. -/
theorem classifySymbol_fold (exps : List ExportedSymbol)
    (acc : DiscoveredComponents) :
    exps.foldl classifySymbol acc =
      { providers := acc.providers ++ exps.filter isInjectableLike
        controllers := acc.controllers ++ exps.filter isHandlerLike } := by
  induction exps generalizing acc with
  | nil => simp
  | cons e exps ih =>
    rw [List.foldl_cons, ih]
    by_cases hf : e.isFunction = true <;>
      by_cases hpr : e.hasPrototype = true <;>
      by_cases hp : jsTruthyStr e.pathMeta = true <;>
      by_cases hi : jsTruthyBool e.injectableMeta = true <;>
      simp [classifySymbol, isHandlerLike, isInjectableLike, hf, hpr, hp, hi]

/-- Full characterization of the scan: each bucket is the filter of the
corresponding predicate over all exports of all loadable files, in
traversal order. -/
theorem discoverComponents_eq (files : List SourceFile) :
    discoverComponents files =
      { providers :=
          (files.flatMap SourceFile.exportsOf).filter isInjectableLike
        controllers :=
          (files.flatMap SourceFile.exportsOf).filter isHandlerLike } := by
  suffices h : ∀ acc, files.foldl scanFile acc =
      { providers := acc.providers ++
          (files.flatMap SourceFile.exportsOf).filter isInjectableLike
        controllers := acc.controllers ++
          (files.flatMap SourceFile.exportsOf).filter isHandlerLike } by
    rw [discoverComponents, h ⟨[], []⟩]
    simp
  induction files with
  | nil => intro acc; simp
  | cons f fs ih =>
    intro acc
    rw [List.foldl_cons]
    cases hl : f.load with
    | ok exps =>
      have hs : scanFile acc f = exps.foldl classifySymbol acc := by
        simp [scanFile, hl]
      rw [hs, ih, classifySymbol_fold]
      simp [SourceFile.exportsOf, hl, List.filter_append, List.append_assoc]
    | thrown n =>
      have hs : scanFile acc f = acc := by simp [scanFile, hl]
      rw [hs, ih]
      simp [SourceFile.exportsOf, hl]

/-- Files whose load throws contribute no exports, so filtering them out
does not change the flattened export list. -/
theorem flatMap_exports_filter (files : List SourceFile) :
    (files.filter SourceFile.loadOk).flatMap SourceFile.exportsOf =
      files.flatMap SourceFile.exportsOf := by
  induction files with
  | nil => rfl
  | cons f fs ih =>
    cases hl : f.load with
    | ok exps => simp [SourceFile.loadOk, SourceFile.exportsOf, hl, ih]
    | thrown n => simp [SourceFile.loadOk, SourceFile.exportsOf, hl, ih]

/-- Claim C5.  A file whose load throws is skipped entirely — it
contributes no handlers and no injectables — and the scan continues
with the remaining files unchanged; the scan is a total function of the
file list (no load failure ever surfaces to the caller), so its result
equals the scan of just the loadable files. -/
theorem scan_skips_failing_files :
    (∀ (pre post : List SourceFile) (f : SourceFile) (n : Nat),
      f.load = .thrown n →
      discoverComponents (pre ++ f :: post) =
        discoverComponents (pre ++ post)) ∧
    (∀ files : List SourceFile,
      discoverComponents files =
        discoverComponents (files.filter SourceFile.loadOk)) := by
  constructor
  · intro pre post f n h
    unfold discoverComponents
    simp [List.foldl_append, scanFile, h]
  · intro files
    rw [discoverComponents_eq, discoverComponents_eq,
      flatMap_exports_filter]

/-- Witness for `scan_skips_failing_files` at a concrete broken file. -/
theorem scan_skips_failing_files_witness :
    discoverComponents ([] ++ ⟨"broken.ts", .thrown 0⟩ :: []) =
      discoverComponents ([] ++ []) :=
  scan_skips_failing_files.1 [] [] ⟨"broken.ts", .thrown 0⟩ 0 rfl

/-- Claim C6.  Classification of exported symbols: the controller bucket
is exactly the class-like exports with truthy routing-path metadata,
the provider bucket is exactly the class-like exports without it but
with a truthy injectable marker; a symbol satisfying neither predicate,
or that is not class-like, lands in neither bucket, and no occurrence
is ever double-classified. -/
theorem scan_classification :
    (∀ files : List SourceFile,
      (discoverComponents files).controllers =
          (files.flatMap SourceFile.exportsOf).filter isHandlerLike ∧
        (discoverComponents files).providers =
          (files.flatMap SourceFile.exportsOf).filter isInjectableLike) ∧
    (∀ e : ExportedSymbol,
      ¬(isHandlerLike e = true ∧ isInjectableLike e = true)) ∧
    (∀ files : List SourceFile, ∀ e : ExportedSymbol,
      e ∈ (discoverComponents files).controllers →
        e ∉ (discoverComponents files).providers) ∧
    (∀ e : ExportedSymbol, e.isFunction = false ∨ e.hasPrototype = false →
      isHandlerLike e = false ∧ isInjectableLike e = false) ∧
    (∀ e : ExportedSymbol, jsTruthyStr e.pathMeta = false →
      jsTruthyBool e.injectableMeta = false →
      isHandlerLike e = false ∧ isInjectableLike e = false) ∧
    (∀ e : ExportedSymbol, (e.isFunction && e.hasPrototype) = true →
      jsTruthyStr e.pathMeta = true → isHandlerLike e = true) ∧
    (∀ e : ExportedSymbol, (e.isFunction && e.hasPrototype) = true →
      jsTruthyStr e.pathMeta = false →
      jsTruthyBool e.injectableMeta = true → isInjectableLike e = true) := by
  have hdisj : ∀ e : ExportedSymbol,
      ¬(isHandlerLike e = true ∧ isInjectableLike e = true) := by
    intro e ⟨h1, h2⟩
    simp [isHandlerLike] at h1
    simp [isInjectableLike, h1] at h2
  refine ⟨?_, hdisj, ?_, ?_, ?_, ?_, ?_⟩
  · intro files
    rw [discoverComponents_eq]
    exact ⟨rfl, rfl⟩
  · intro files e hctl hprov
    rw [discoverComponents_eq] at hctl hprov
    exact hdisj e ⟨(List.mem_filter.mp hctl).2, (List.mem_filter.mp hprov).2⟩
  · intro e h
    cases h with
    | inl h => simp [isHandlerLike, isInjectableLike, h]
    | inr h => simp [isHandlerLike, isInjectableLike, h]
  · intro e h1 h2
    simp [isHandlerLike, isInjectableLike, h1, h2]
  · intro e h1 h2
    simp [Bool.and_eq_true] at h1
    simp [isHandlerLike, h1.1, h1.2, h2]
  · intro e h1 h2 h3
    simp [Bool.and_eq_true] at h1
    simp [isInjectableLike, h1.1, h1.2, h2, h3]

/-- Witness for `scan_classification`: a concrete tagged controller is
classified a handler, a concrete tagged provider an injectable. -/
theorem scan_classification_witness :
    isHandlerLike ⟨0, true, true, some "users", none⟩ = true ∧
      isInjectableLike ⟨1, true, true, none, some true⟩ = true :=
  ⟨scan_classification.2.2.2.2.2.1 ⟨0, true, true, some "users", none⟩
      (by decide) (by decide),
    scan_classification.2.2.2.2.2.2 ⟨1, true, true, none, some true⟩
      (by decide) (by decide) (by decide)⟩

/-- Claim C8.  The health endpoint's check operation: `{database: true,
memory: {}}` with a database indicator available queues exactly 3
checks — the database ping plus the two memory checks with the default
thresholds of 200 MB heap and 300 MB RSS converted to bytes — while
`{database: true}` with no indicator available queues none. -/
theorem health_check_invocations :
    (HealthController.check
        { database := some true, memory := some {} } true).length = 3 ∧
      (HealthController.check { database := some true } false).length = 0 ∧
      HealthController.check { database := some true, memory := some {} }
          true =
        [.dbPing "database", .checkHeap "memory_heap" (200 * 1024 * 1024),
          .checkRSS "memory_rss" (300 * 1024 * 1024)] := by
  refine ⟨rfl, rfl, by decide⟩

/-- Claim C9.  The route-prefix setter normalizes its argument to start
with a path separator: `"api"` is stored as `"/api"`, any input already
starting with `"/"` is stored unchanged, and the normalization is
idempotent. -/
theorem route_prefix_normalized :
    (∀ s : BuilderState,
      (withGlobalPrefix "api" s).globalPrefix = some "/api") ∧
    (∀ (s : BuilderState) (p : String), jsStartsWith p "/" = true →
      (withGlobalPrefix p s).globalPrefix = some p) ∧
    (∀ p : String, normalizePrefix (normalizePrefix p) = normalizePrefix p) := by
  refine ⟨fun s => ?_, fun s p h => ?_, fun p => ?_⟩
  · show some (normalizePrefix "api") = some "/api"
    decide
  · show some (normalizePrefix p) = some p
    rw [normalizePrefix, if_pos h]
  · by_cases h : jsStartsWith p "/" = true
    · have hp : normalizePrefix p = p := by rw [normalizePrefix, if_pos h]
      rw [hp, hp]
    · have hp : normalizePrefix p = "/" ++ p := by
        rw [normalizePrefix, if_neg h]
      have h2 : jsStartsWith ("/" ++ p) "/" = true := by
        unfold jsStartsWith
        simp [String.data_append, List.isPrefixOf]
      rw [hp, normalizePrefix, if_pos h2]

/-- Witness for `route_prefix_normalized` at a concrete already-slashed
prefix. -/
theorem route_prefix_normalized_witness :
    (withGlobalPrefix "/v1" { port := 3000 }).globalPrefix = some "/v1" :=
  route_prefix_normalized.2.1 { port := 3000 } "/v1" (by decide)

/-! ## Plugin loop lemmas -/

/-- When every plugin's apply resolves, the loop emits, for each plugin
in registration order, its log line, its begin and its end — each
plugin's apply completing before the next one begins — and no error. -/
theorem runPlugins_all_ok (f : Plugin → Except JsVal Unit)
    (ps : List Plugin) (h : ∀ p ∈ ps, f p = .ok ()) :
    runPlugins f ps =
      (ps.flatMap fun p =>
        [.logMsg ("Aplicando o plugin: " ++ p.ctorName),
         .pluginApplyBegin p, .pluginApplyEnd p], none) := by
  induction ps with
  | nil => rfl
  | cons p ps ih =>
    have hp : f p = .ok () := h p (List.mem_cons_self p ps)
    have hrest := ih fun q hq => h q (List.mem_cons_of_mem p hq)
    simp [runPlugins, hp, hrest]

/-- When the apply of plugin `p` rejects after a prefix of resolving
plugins, the loop emits the full event triples of the prefix, then
`p`'s log and begin only, and propagates `p`'s error: no later plugin
is ever begun. -/
theorem runPlugins_fails (f : Plugin → Except JsVal Unit)
    (pre : List Plugin) (p : Plugin) (post : List Plugin) (e : JsVal)
    (hpre : ∀ q ∈ pre, f q = .ok ()) (hp : f p = .error e) :
    runPlugins f (pre ++ p :: post) =
      (pre.flatMap (fun q =>
        [.logMsg ("Aplicando o plugin: " ++ q.ctorName),
         .pluginApplyBegin q, .pluginApplyEnd q]) ++
        [.logMsg ("Aplicando o plugin: " ++ p.ctorName),
         .pluginApplyBegin p], some e) := by
  induction pre with
  | nil => simp [runPlugins, hp]
  | cons q pre ih =>
    have hq : f q = .ok () := hpre q (List.mem_cons_self q pre)
    have hrest := ih fun r hr => hpre r (List.mem_cons_of_mem q hr)
    simp [runPlugins, hq, hrest]

/-- Every event the plugin loop emits is a log line, a begin or an
end. -/
theorem runPlugins_events_phase (f : Plugin → Except JsVal Unit)
    (ps : List Plugin) :
    ∀ e ∈ (runPlugins f ps).1, e.isPluginPhase = true := by
  induction ps with
  | nil => intro e he; simp [runPlugins] at he
  | cons p ps ih =>
    intro e he
    cases hf : f p with
    | ok u =>
      cases u
      simp [runPlugins, hf] at he
      rcases he with rfl | rfl | rfl | he
      · rfl
      · rfl
      · rfl
      · exact ih e he
    | error ee =>
      simp [runPlugins, hf] at he
      rcases he with rfl | rfl
      · rfl
      · rfl

/-- The error component of `listen` is exactly the plugin loop's
propagated error. -/
theorem listenRun_snd (b : Builder) (f : Plugin → Except JsVal Unit)
    (url : String) :
    (listenRun b f url).2 = (runPlugins f b.st.plugins).2 := by
  unfold listenRun
  rcases hrp : runPlugins f b.st.plugins with ⟨evs, err⟩
  cases err <;> simp

/-- The event trace of `listen`: the creation/configuration/setup
phase, then the plugin loop's events, then — only when no plugin
rejected — the interceptor/Swagger/bind tail. -/
theorem listenRun_fst (b : Builder) (f : Plugin → Except JsVal Unit)
    (url : String) :
    (listenRun b f url).1 =
      listenPre b ++ (runPlugins f b.st.plugins).1 ++
        (match (runPlugins f b.st.plugins).2 with
         | some _ => []
         | none => listenTail b.st url) := by
  unfold listenRun
  rcases hrp : runPlugins f b.st.plugins with ⟨evs, err⟩
  cases err <;> simp

/-- Claim C2.  Plugins are applied strictly sequentially in registration
(FIFO) order — each apply is awaited to completion before the next
begins — and a rejecting plugin aborts the remaining plugins, its error
propagating out of materialization. -/
theorem plugins_fifo_sequential :
    (∀ (f : Plugin → Except JsVal Unit) (ps : List Plugin),
      (∀ p ∈ ps, f p = .ok ()) →
      runPlugins f ps =
        (ps.flatMap fun p =>
          [.logMsg ("Aplicando o plugin: " ++ p.ctorName),
           .pluginApplyBegin p, .pluginApplyEnd p], none)) ∧
    (∀ (f : Plugin → Except JsVal Unit) (pre : List Plugin) (p : Plugin)
      (post : List Plugin) (e : JsVal),
      (∀ q ∈ pre, f q = .ok ()) → f p = .error e →
      runPlugins f (pre ++ p :: post) =
        (pre.flatMap (fun q =>
          [.logMsg ("Aplicando o plugin: " ++ q.ctorName),
           .pluginApplyBegin q, .pluginApplyEnd q]) ++
          [.logMsg ("Aplicando o plugin: " ++ p.ctorName),
           .pluginApplyBegin p], some e)) ∧
    (∀ (b : Builder) (f : Plugin → Except JsVal Unit) (url : String)
      (pre : List Plugin) (p : Plugin) (post : List Plugin) (e : JsVal),
      b.st.plugins = pre ++ p :: post →
      (∀ q ∈ pre, f q = .ok ()) → f p = .error e →
      (listenRun b f url).2 = some e) := by
  refine ⟨runPlugins_all_ok, runPlugins_fails, ?_⟩
  intro b f url pre p post e hps hpre hp
  rw [listenRun_snd, hps, runPlugins_fails f pre p post e hpre hp]

/-- Witness for `plugins_fifo_sequential`: a concrete loop where the
second plugin rejects skips the third plugin and propagates the
error. -/
theorem plugins_fifo_sequential_witness :
    runPlugins
        (fun q => if q = .user "boom" 0 then .error (.raw 3) else .ok ())
        ([Plugin.requestLogger] ++ .user "boom" 0 :: [.user "never" 1]) =
      ([Plugin.requestLogger].flatMap (fun q =>
        [.logMsg ("Aplicando o plugin: " ++ q.ctorName),
         .pluginApplyBegin q, .pluginApplyEnd q]) ++
        [.logMsg ("Aplicando o plugin: " ++ (Plugin.user "boom" 0).ctorName),
         .pluginApplyBegin (.user "boom" 0)], some (.raw 3)) :=
  plugins_fifo_sequential.2.1
    (fun q => if q = .user "boom" 0 then .error (.raw 3) else .ok ())
    [Plugin.requestLogger] (.user "boom" 0) [.user "never" 1] (.raw 3)
    (by intro q hq; rcases List.mem_singleton.mp hq with rfl; rfl)
    (by rfl)

/-! ## Trace filter lemmas -/

/-- A filter that is pointwise false on a list is empty. -/
theorem filter_none_of_all_false {α : Type} (P : α → Bool) (l : List α)
    (h : ∀ e ∈ l, P e = false) : l.filter P = [] :=
  List.filter_eq_nil_iff.mpr fun e he => by rw [h e he]; simp

/-- Plugin-loop events never match a predicate that excludes the
plugin-phase event kinds. -/
theorem runPlugins_filter_none (f : Plugin → Except JsVal Unit)
    (ps : List Plugin) (P : Event → Bool)
    (h : ∀ e : Event, e.isPluginPhase = true → P e = false) :
    (runPlugins f ps).1.filter P = [] :=
  filter_none_of_all_false P _ fun e he =>
    h e (runPlugins_events_phase f ps e he)

/-- Mapped events never match a predicate false on the constructor. -/
theorem filter_map_none {α : Type} (g : α → Event) (P : Event → Bool)
    (h : ∀ x, P (g x) = false) (l : List α) :
    (l.map g).filter P = [] :=
  filter_none_of_all_false P _ fun e he => by
    rcases List.mem_map.mp he with ⟨x, _, rfl⟩
    exact h x

/-- The creation phase contains exactly one `NestFactory.create`
call. -/
theorem listenPre_filter_factoryCreate (b : Builder) :
    (listenPre b).filter Event.isFactoryCreate =
      [.factoryCreate (mkRootModule b) b.adapter] := by
  unfold listenPre
  have hsetup := filter_map_none Event.setupRun Event.isFactoryCreate
    (fun x => rfl) b.st.setupFunctions
  by_cases hp : jsTruthyStr b.st.globalPrefix = true <;>
    cases b.st.corsOptions <;> cases b.st.versioningOptions <;>
      simp [hp, Event.isFactoryCreate, List.filter_append, hsetup]

/-- The success tail contains no `NestFactory.create` call. -/
theorem listenTail_filter_factoryCreate (st : BuilderState) (url : String) :
    (listenTail st url).filter Event.isFactoryCreate = [] := by
  unfold listenTail
  have hint := filter_map_none Event.useGlobalInterceptors
    Event.isFactoryCreate (fun x => rfl) st.globalInterceptors
  cases st.swaggerOptions <;>
    simp [Event.isFactoryCreate, List.filter_append, hint]

/-- The creation phase's configuration calls: route prefix, CORS,
versioning, in that order, each present exactly when its field is
truthy. -/
theorem listenPre_filter_appConfig (b : Builder)
    (hpfx : ∀ p, b.st.globalPrefix = some p → p.isEmpty = false) :
    (listenPre b).filter Event.isAppConfig =
      (match b.st.globalPrefix with
       | some p => [.setGlobalPrefix p]
       | none => []) ++
      (match b.st.corsOptions with
       | some o => [.enableCors o]
       | none => []) ++
      (match b.st.versioningOptions with
       | some v => [.enableVersioning v]
       | none => []) := by
  unfold listenPre
  have hsetup := filter_map_none Event.setupRun Event.isAppConfig
    (fun x => rfl) b.st.setupFunctions
  cases hgp : b.st.globalPrefix with
  | none =>
    cases b.st.corsOptions <;> cases b.st.versioningOptions <;>
      simp [jsTruthyStr, Event.isAppConfig, List.filter_append, hsetup]
  | some p =>
    have hne : p.isEmpty = false := hpfx p hgp
    cases b.st.corsOptions <;> cases b.st.versioningOptions <;>
      simp [jsTruthyStr, hne, Event.isAppConfig, List.filter_append, hsetup]

/-- The success tail contains no prefix/CORS/versioning call. -/
theorem listenTail_filter_appConfig (st : BuilderState) (url : String) :
    (listenTail st url).filter Event.isAppConfig = [] := by
  unfold listenTail
  have hint := filter_map_none Event.useGlobalInterceptors
    Event.isAppConfig (fun x => rfl) st.globalInterceptors
  cases st.swaggerOptions <;>
    simp [Event.isAppConfig, List.filter_append, hint]

/-- The root module synthesized after an arbitrary call sequence, in
terms of the calls' contributions. -/
theorem mkRootModule_spec (calls : List ConfigCall) (m : Nat)
    (a : Option Nat) (envPORT : Option String) :
    mkRootModule
        { module := m, adapter := a
          st := applyCalls calls (Builder.mk' m a envPORT).st } =
      { imports := .rootModule m :: calls.flatMap featureModulesOf
        controllers :=
          ((lastWrite discoveryWriteOf calls none).getD
            ⟨[], []⟩).controllers.map .discovered
        providers :=
          ((lastWrite discoveryWriteOf calls none).getD
              ⟨[], []⟩).providers.map .classRef ++
            calls.flatMap globalProvidersOf } := by
  rw [applyCalls_spec]
  unfold mkRootModule specApply Builder.mk'
  cases hd : lastWrite discoveryWriteOf calls none <;> simp [hd]

/-- The normalized route prefix is never the empty string. -/
theorem normalizePrefix_not_isEmpty (p : String) :
    (normalizePrefix p).isEmpty = false := by
  unfold normalizePrefix
  by_cases h : jsStartsWith p "/" = true
  · rw [if_pos h]
    unfold jsStartsWith at h
    cases hemp : p.isEmpty
    · rfl
    · rw [String.isEmpty_iff] at hemp
      subst hemp
      simp [List.isPrefixOf] at h
  · rw [if_neg h]
    cases hemp : ("/" ++ p).isEmpty
    · rfl
    · rw [String.isEmpty_iff] at hemp
      have hd : ("/" ++ p).data = '/' :: p.data := by
        simp [String.data_append]
      rw [hemp] at hd
      simp at hd

/-- A property of every value a call sequence can leave as the last
write is preserved by `lastWrite`. -/
theorem lastWrite_preserve {α : Type} (w : ConfigCall → Option α)
    (P : α → Prop) (hw : ∀ c v, w c = some v → P v) :
    ∀ (cs : List ConfigCall) (acc : Option α),
      (∀ v, acc = some v → P v) →
      ∀ v, lastWrite w cs acc = some v → P v := by
  intro cs
  induction cs with
  | nil => intro acc hacc v h; exact hacc v h
  | cons c cs ih =>
    intro acc hacc v h
    refine ih _ ?_ v h
    intro u hu
    cases hc : w c with
    | some x =>
      rw [hc] at hu
      cases hu
      exact hw c u hc
    | none =>
      rw [hc] at hu
      exact hacc u hu

/-- Every written route prefix is non-empty (truthy). -/
theorem globalPrefixWrite_truthy (c : ConfigCall) (v : String)
    (h : globalPrefixWriteOf c = some v) : v.isEmpty = false := by
  cases c <;> simp [globalPrefixWriteOf] at h
  rw [← h]
  exact normalizePrefix_not_isEmpty _

/-- Claim C1.  Materialization after any sequence of chained
configuration calls synthesizes exactly one composition root; its list
of imports is the root module followed by the feature modules in
registration order, its provider list is the scanner-discovered
injectables (empty when auto-discovery was never requested) followed by
the explicitly registered global providers in registration order, and
its controller list is the scanner-discovered handlers followed by the
explicitly supplied controller types (a list no chained call can
populate, hence empty). -/
theorem listen_one_root_module (calls : List ConfigCall) (m : Nat)
    (a : Option Nat) (envPORT : Option String)
    (f : Plugin → Except JsVal Unit) (url : String) :
    (listenRun
          { module := m, adapter := a
            st := applyCalls calls (Builder.mk' m a envPORT).st }
          f url).1.filter Event.isFactoryCreate =
        [.factoryCreate
          { imports := .rootModule m :: calls.flatMap featureModulesOf
            controllers :=
              ((lastWrite discoveryWriteOf calls none).getD
                ⟨[], []⟩).controllers.map .discovered
            providers :=
              ((lastWrite discoveryWriteOf calls none).getD
                  ⟨[], []⟩).providers.map .classRef ++
                calls.flatMap globalProvidersOf } a] ∧
      (applyCalls calls
        (Builder.mk' m a envPORT).st).factoryGeneratedControllers = [] := by
  constructor
  · rw [listenRun_fst, List.filter_append, List.filter_append,
      listenPre_filter_factoryCreate, mkRootModule_spec,
      runPlugins_filter_none _ _ _ (fun e he => by cases e <;> simp_all
        [Event.isPluginPhase, Event.isFactoryCreate])]
    cases (runPlugins f (applyCalls calls (Builder.mk' m a envPORT).st).plugins).2 <;>
      simp [listenTail_filter_factoryCreate]
  · rw [applyCalls_spec]
    rfl

/-- Claim C7.  During materialization the route prefix, the CORS policy
and the API versioning policy are applied in exactly that order, and
each produces a framework call only when its field was set by the
preceding configuration calls — an unset field produces no call at
all. -/
theorem conditional_config_order (calls : List ConfigCall) (m : Nat)
    (a : Option Nat) (envPORT : Option String)
    (f : Plugin → Except JsVal Unit) (url : String) :
    (listenRun
          { module := m, adapter := a
            st := applyCalls calls (Builder.mk' m a envPORT).st }
          f url).1.filter Event.isAppConfig =
      (match (applyCalls calls (Builder.mk' m a envPORT).st).globalPrefix with
       | some p => [.setGlobalPrefix p]
       | none => []) ++
      (match (applyCalls calls (Builder.mk' m a envPORT).st).corsOptions with
       | some o => [.enableCors o]
       | none => []) ++
      (match (applyCalls calls
          (Builder.mk' m a envPORT).st).versioningOptions with
       | some v => [.enableVersioning v]
       | none => []) := by
  have hpfx : ∀ p, (applyCalls calls
      (Builder.mk' m a envPORT).st).globalPrefix = some p →
      p.isEmpty = false := by
    intro p hp
    rw [applyCalls_spec] at hp
    exact lastWrite_preserve globalPrefixWriteOf _ globalPrefixWrite_truthy
      calls _ (fun v hv => by cases hv) p hp
  rw [listenRun_fst, List.filter_append, List.filter_append,
    listenPre_filter_appConfig _ hpfx,
    runPlugins_filter_none _ _ _ (fun e he => by cases e <;> simp_all
      [Event.isPluginPhase, Event.isAppConfig])]
  cases (runPlugins f (applyCalls calls (Builder.mk' m a envPORT).st).plugins).2 <;>
    simp [listenTail_filter_appConfig]

/-! ## Frame properties of the chained calls -/

/-- Claim C4, amended.  Every chained configuration call other than the
two preset combinators and `withTypeOrm` with `runMigrationsOnStartup`
set writes exactly one field of `BuilderState` (`touchCount c = 1`);
and — for all chained calls — the full effect is captured by the
contribution spec: every field other than the call's targets is
unchanged, a scalar write depends only on the call (so of N calls only
the last survives), and append-only fields retain every appended entry
in call order, over a single call and over any call sequence.
(`withTypeOrm` with `runMigrationsOnStartup` appends to both
`featureModules` and `plugins`, see its counterexample.) -/
theorem chained_call_single_field :
    (∀ c : ConfigCall, c.isPreset = false → c.migrationFree = true →
      touchCount c = 1) ∧
    (∀ (c : ConfigCall) (s : BuilderState),
      applyCall c s = specApply [c] s) ∧
    (∀ (cs : List ConfigCall) (s : BuilderState),
      applyCalls cs s = specApply cs s) := by
  refine ⟨?_, applyCall_spec, applyCalls_spec⟩
  intro c h1 h2
  cases c <;> simp_all [ConfigCall.isPreset, ConfigCall.migrationFree,
    touchCount, featureModulesOf, globalProvidersOf, pluginsOf,
    setupFunctionsOf, globalInterceptorsOf, portWriteOf,
    globalPrefixWriteOf, versioningWriteOf, corsWriteOf, swaggerWriteOf,
    advancedSwaggerWriteOf, discoveryWriteOf, createTypeOrmStarter]

/-- Witness for `chained_call_single_field` at the concrete `onPort`
call. -/
theorem chained_call_single_field_witness :
    touchCount (.onPort 8080) = 1 ∧
      applyCall (.onPort 8080) { port := 3000 } =
        specApply [.onPort 8080] { port := 3000 } :=
  ⟨chained_call_single_field.1 (.onPort 8080) (by decide) (by decide),
    chained_call_single_field.2.1 (.onPort 8080) { port := 3000 }⟩

/-- Claim C4 counterexample.  `withTypeOrm` with
`runMigrationsOnStartup: true` mutates two ordered sequences of
`BuilderState` in one chained call: it appends the TypeORM starter
module to `featureModules` and also appends the migration plugin to
`plugins`. -/
theorem withTypeOrm_touches_two_sequences :
    (applyCall (.withTypeOrm { runMigrationsOnStartup := some true })
          { port := 3000 }).featureModules ≠
        ({ port := 3000 } : BuilderState).featureModules ∧
      (applyCall (.withTypeOrm { runMigrationsOnStartup := some true })
          { port := 3000 }).plugins ≠
        ({ port := 3000 } : BuilderState).plugins := by
  constructor <;> decide

/-! ## Bootstrap lemmas -/

/-- Log entries lifted from `listen`'s trace are all info-level. -/
theorem logsOfEvents_not_error (evs : List Event) :
    ∀ l ∈ logsOfEvents evs, isErrorLog l = false := by
  intro l hl
  rcases List.mem_filterMap.mp hl with ⟨e, _, he⟩
  cases e <;> simp at he
  rw [← he]
  rfl

/-- The catch block's log entry is error-level. -/
theorem errorLogFor_isErrorLog (e : JsVal) :
    isErrorLog (errorLogFor e) = true := by
  cases e <;> rfl

/-- The creation phase never binds the network listener. -/
theorem listenPre_filter_appListen (b : Builder) :
    (listenPre b).filter Event.isAppListen = [] := by
  unfold listenPre
  have hsetup := filter_map_none Event.setupRun Event.isAppListen
    (fun x => rfl) b.st.setupFunctions
  by_cases hp : jsTruthyStr b.st.globalPrefix = true <;>
    cases b.st.corsOptions <;> cases b.st.versioningOptions <;>
      simp [hp, Event.isAppListen, List.filter_append, hsetup]

/-- Claim C3.  Any error thrown by the configuration callback or during
materialization is caught exactly once at the top level of `bootstrap`:
the process exits with status 1, nothing is re-thrown to the caller,
exactly one error-level entry is logged — with the message and stack
trace for an error object, generically with the raw value otherwise —
and the network listener is never invoked; in particular a callback
throwing `Error("X")` yields exit status 1, a log entry containing
`"X"`, and no listener bind. -/
theorem bootstrap_catches_once :
    (∀ (m : Nat) (cfg : Configurator) (envPORT : Option String)
      (f : Plugin → Except JsVal Unit) (url : String) (e : JsVal),
      cfg (Builder.mk' m none envPORT) = .error e →
      (bootstrap m (.configurator cfg) none envPORT f url).exitStatus =
          some 1 ∧
        (bootstrap m (.configurator cfg) none envPORT f url).thrown = none ∧
        (bootstrap m (.configurator cfg) none envPORT f
            url).logs.filter isErrorLog = [errorLogFor e] ∧
        (bootstrap m (.configurator cfg) none envPORT f
            url).events.filter Event.isAppListen = []) ∧
    (∀ (m : Nat) (cfg : Configurator) (envPORT : Option String)
      (f : Plugin → Except JsVal Unit) (url : String) (b1 : Builder)
      (e : JsVal),
      cfg (Builder.mk' m none envPORT) = .ok b1 →
      (runPlugins f b1.st.plugins).2 = some e →
      (bootstrap m (.configurator cfg) none envPORT f url).exitStatus =
          some 1 ∧
        (bootstrap m (.configurator cfg) none envPORT f url).thrown = none ∧
        (bootstrap m (.configurator cfg) none envPORT f
            url).logs.filter isErrorLog = [errorLogFor e] ∧
        (bootstrap m (.configurator cfg) none envPORT f
            url).events.filter Event.isAppListen = []) ∧
    (∀ (kind : ErrKind) (msg st : String),
      errorLogFor (.errObj kind msg st) =
        { level := .error
          message := "Falha ao inicializar a aplicação. Error: " ++ msg
          trailing := some (.str st) }) ∧
    (∀ v : Nat,
      errorLogFor (.raw v) =
        { level := .error
          message :=
            "Falha ao inicializar a aplicação com um erro não-padrão."
          trailing := some (.val (.raw v)) }) ∧
    (∀ (m : Nat) (envPORT : Option String)
      (f : Plugin → Except JsVal Unit) (url st : String),
      (bootstrap m
          (.configurator fun _ => .error (.errObj .plain "X" st)) none
          envPORT f url).exitStatus = some 1 ∧
        ((bootstrap m
            (.configurator fun _ => .error (.errObj .plain "X" st)) none
            envPORT f url).logs.map LogEntry.message).any
          (fun msg => containsSub msg "X") = true ∧
        (bootstrap m
            (.configurator fun _ => .error (.errObj .plain "X" st)) none
            envPORT f url).events.filter Event.isAppListen = []) := by
  have hbranch1 : ∀ (m : Nat) (cfg : Configurator) (envPORT : Option String)
      (f : Plugin → Except JsVal Unit) (url : String) (e : JsVal),
      cfg (Builder.mk' m none envPORT) = .error e →
      bootstrap m (.configurator cfg) none envPORT f url =
        { logs :=
            [{ level := .info
               message := "Iniciando o processo de bootstrap da aplicação..." },
             errorLogFor e]
          exitStatus := some 1
          thrown := none
          events := [] } := by
    intro m cfg envPORT f url e hc
    simp only [bootstrap]
    rw [hc]
  constructor
  · intro m cfg envPORT f url e hc
    rw [hbranch1 m cfg envPORT f url e hc]
    refine ⟨rfl, rfl, ?_, rfl⟩
    cases e <;> rfl
  constructor
  · intro m cfg envPORT f url b1 e hc hrp
    rcases hr : runPlugins f b1.st.plugins with ⟨evs, err⟩
    rw [hr] at hrp
    subst hrp
    have hl : listenRun b1 f url = (listenPre b1 ++ evs, some e) := by
      unfold listenRun
      rw [hr]
    have hb : bootstrap m (.configurator cfg) none envPORT f url =
        { logs :=
            [{ level := .info
               message := "Iniciando o processo de bootstrap da aplicação..." }] ++
              logsOfEvents (listenPre b1 ++ evs) ++ [errorLogFor e]
          exitStatus := some 1
          thrown := none
          events := listenPre b1 ++ evs } := by
      simp only [bootstrap, hc, hl]
    rw [hb]
    refine ⟨rfl, rfl, ?_, ?_⟩
    · rw [List.filter_append, List.filter_append,
        filter_none_of_all_false isErrorLog _
          (logsOfEvents_not_error (listenPre b1 ++ evs))]
      simp [List.filter, isErrorLog, errorLogFor_isErrorLog]
      cases e <;> rfl
    · rw [List.filter_append, listenPre_filter_appListen]
      have hevs : evs.filter Event.isAppListen = [] := by
        have := runPlugins_filter_none f b1.st.plugins Event.isAppListen
          (fun ev hev => by cases ev <;> simp_all [Event.isPluginPhase,
            Event.isAppListen])
        rw [hr] at this
        exact this
      rw [hevs]
      rfl
  refine ⟨fun kind msg st => rfl, fun v => rfl, ?_⟩
  intro m envPORT f url st
  rw [hbranch1 m (fun _ => .error (.errObj .plain "X" st)) envPORT f url
    (.errObj .plain "X" st) rfl]
  refine ⟨rfl, ?_, rfl⟩
  simp only [List.map, errorLogFor, List.any]
  decide

/-- Witness for `bootstrap_catches_once` at a concrete throwing
configurator. -/
theorem bootstrap_catches_once_witness :
    (bootstrap 0 (.configurator fun _ => .error (.raw 9)) none none
          (fun _ => .ok ()) "url").exitStatus = some 1 ∧
      (bootstrap 0 (.configurator fun _ => .error (.raw 9)) none none
          (fun _ => .ok ()) "url").thrown = none ∧
      (bootstrap 0 (.configurator fun _ => .error (.raw 9)) none none
          (fun _ => .ok ()) "url").logs.filter isErrorLog =
        [errorLogFor (.raw 9)] ∧
      (bootstrap 0 (.configurator fun _ => .error (.raw 9)) none none
          (fun _ => .ok ()) "url").events.filter Event.isAppListen = [] :=
  bootstrap_catches_once.1 0 (fun _ => .error (.raw 9)) none
    (fun _ => .ok ()) "url" (.raw 9) rfl

/-- Claim C10.  Invoking `bootstrap` with an adapter but no configurator
throws the `TypeError` straight to the caller, before the top-level
`try`/`catch` is in effect: nothing is logged, no materialization event
occurs, and the process does not exit with status 1. -/
theorem bootstrap_without_configurator (m : Nat) (a : Nat)
    (envPORT : Option String) (f : Plugin → Except JsVal Unit)
    (url : String) :
    bootstrap m (.adapter a) none envPORT f url =
      { logs := []
        exitStatus := none
        thrown := some (.errObj .type bootstrapTypeErrorMessage "")
        events := [] } := rfl

end NestInit
